import Mathlib

/-!
Verification of `src/curl_runner.py` (curl_templates repository).

The Python source is shallowly embedded below.  External effects (the file
system, the `subprocess` call issuing the HTTP request, and the standard
library `json.loads`) are collected in an explicit environment `Env`;
everything else is translated line by line from the source file.
-/

/-- Python whitespace characters recognised by `str.strip()` (ASCII subset;
the source only ever strips curl output, which is ASCII). -/
def isPySpace (c : Char) : Bool :=
  c = ' ' || c = '\t' || c = '\n' || c = '\r' || c.toNat = 11 || c.toNat = 12

/-- `str.strip()` on a character list: drop whitespace at both ends. -/
def pyStripList (l : List Char) : List Char :=
  ((l.dropWhile isPySpace).reverse.dropWhile isPySpace).reverse

/-- `s.strip()` for Python strings. -/
def pyStrip (s : String) : String :=
  (pyStripList s.toList).asString

/-- Python slice `s[-n:]` (the last `n` characters, or all of `s` when shorter). -/
def takeLastN (l : List Char) (n : Nat) : List Char :=
  l.drop (l.length - n)

/-- Python slice `s[:-n]` (everything except the last `n` characters; empty when
`s` has at most `n` characters). -/
def dropLastN (l : List Char) (n : Nat) : List Char :=
  l.take (l.length - n)

/-- Index of the first occurrence of `sep` inside `l`, if any
(the search `str.partition` and `re` need). -/
def subIdx (sep : List Char) : List Char → Option Nat
  | [] => if sep = [] then some 0 else none
  | c :: t => if sep.isPrefixOf (c :: t) then some 0 else (subIdx sep t).map (· + 1)

/-- Python `s.partition(sep)`: split at the first occurrence of `sep`; when
`sep` does not occur, return `(s, "", "")`. -/
def pyPartition (s sep : String) : String × String × String :=
  match subIdx sep.toList s.toList with
  | none => (s, "", "")
  | some i => ((s.toList.take i).asString, sep, (s.toList.drop (i + sep.length)).asString)

/-- Python `str.upper()` (ASCII letters; the source only upcases HTTP method
names). -/
def pyUpper (s : String) : String :=
  (s.toList.map Char.toUpper).asString

/-- Helper for `pyInt`: value of a nonempty Python digit run in which single
underscores may separate digits (`int("1_0") = 10`). -/
def digitRunAux : List Char → Nat → Option Nat
  | [], acc => some acc
  | '_' :: c :: rest, acc =>
      if c.isDigit then digitRunAux rest (acc * 10 + (c.toNat - 48)) else none
  | ['_'], _ => none
  | c :: rest, acc =>
      if c.isDigit then digitRunAux rest (acc * 10 + (c.toNat - 48)) else none

/-- Helper for `pyInt`: a digit run must start with a digit. -/
def digitRun : List Char → Option Nat
  | [] => none
  | '_' :: _ => none
  | l => digitRunAux l 0

/-- Python `int(s)` on decimal strings: surrounding whitespace is ignored, an
optional sign is allowed, and single underscores may separate digits.
(Non-ASCII digits accepted by CPython are out of scope; the parsed strings
here are slices of curl output.)  Returns `none` where `int` raises
`ValueError`. -/
def pyInt (s : String) : Option Int :=
  match pyStripList s.toList with
  | '+' :: rest => (digitRun rest).map Int.ofNat
  | '-' :: rest => (digitRun rest).map fun n => -(n : Int)
  | rest => (digitRun rest).map Int.ofNat

/-- UTF-8 bytes of one character (as `Nat`s), as Python encodes query strings. -/
def utf8Bytes (c : Char) : List Nat :=
  let n := c.toNat
  if n < 0x80 then [n]
  else if n < 0x800 then
    [0xC0 ||| (n >>> 6), 0x80 ||| (n &&& 0x3F)]
  else if n < 0x10000 then
    [0xE0 ||| (n >>> 12), 0x80 ||| ((n >>> 6) &&& 0x3F), 0x80 ||| (n &&& 0x3F)]
  else
    [0xF0 ||| (n >>> 18), 0x80 ||| ((n >>> 12) &&& 0x3F),
     0x80 ||| ((n >>> 6) &&& 0x3F), 0x80 ||| (n &&& 0x3F)]

/-- Upper-case hexadecimal digit, as `urllib.parse.quote` emits. -/
def hexDigit (n : Nat) : Char :=
  if n < 10 then Char.ofNat (48 + n) else Char.ofNat (55 + n)

/-- `urllib.parse.quote_plus` on one byte: keep unreserved bytes, turn a space
into `+`, percent-encode the rest. -/
def quotePlusByte (b : Nat) : List Char :=
  if (65 ≤ b ∧ b ≤ 90) ∨ (97 ≤ b ∧ b ≤ 122) ∨ (48 ≤ b ∧ b ≤ 57) ∨
      b = 95 ∨ b = 46 ∨ b = 45 ∨ b = 126 then [Char.ofNat b]
  else if b = 32 then ['+']
  else ['%', hexDigit (b / 16), hexDigit (b % 16)]

/-- `urllib.parse.quote_plus` on a string. -/
def quote_plus (s : String) : String :=
  (((s.toList.map utf8Bytes).flatten.map quotePlusByte).flatten).asString

/-- `urllib.parse.urlencode` on an insertion-ordered mapping (Python `dict`
items order), as called at line 32 of the source. -/
def urlencode (params : List (String × String)) : String :=
  String.intercalate "&" (params.map fun kv => quote_plus kv.1 ++ "=" ++ quote_plus kv.2)

/-- `re.search(r"\[([^\]]+)\]", s)` helper: the characters of `l` strictly
before its first `']'`, or `none` when `l` has no `']'`. -/
def brTake : List Char → Option (List Char)
  | [] => none
  | c :: r => if c = ']' then some [] else (brTake r).map (fun cs => c :: cs)

/-- `re.search(r"\[([^\]]+)\]", s).group(1)`: content of the leftmost
bracket-delimited substring with nonempty content (line 78 of the source).
The content may itself contain `'['` or a newline, but never `']'`. -/
def bracketSearchL : List Char → Option (List Char)
  | [] => none
  | c :: r =>
    if c = '[' then
      match brTake r with
      | some cs => if cs = [] then bracketSearchL r else some cs
      | none => bracketSearchL r
    else bracketSearchL r

/-- String version of `bracketSearchL`. -/
def bracketSearch (s : String) : Option String :=
  (bracketSearchL s.toList).map List.asString

/-- `re.sub(r"\[.*?\]", _, s)` helper: the remainder of `l` after the closing
`']'` of a lazy match, where `.` does not cross a newline; `none` when the
match cannot be completed. -/
def brEnd : List Char → Option (List Char)
  | [] => none
  | c :: r => if c = ']' then some r else if c = '\n' then none else brEnd r

/-- `re.sub(r"\[.*?\]", repl, s)` on character lists, with explicit fuel (one
unit per character position; `fuel = l.length` always suffices).  Every
non-overlapping occurrence of `[` … `]` with no `']'` and no newline in
between (the content may be empty) is replaced by `repl`, scanning left to
right as `re.sub` does. -/
def pySubAux (repl : List Char) : Nat → List Char → List Char
  | _, [] => []
  | 0, l => l
  | Nat.succ f, c :: rest =>
    if c = '[' then
      match brEnd rest with
      | some rest' => repl ++ pySubAux repl f rest'
      | none => c :: pySubAux repl f rest
    else c :: pySubAux repl f rest

/-- `re.sub(r"\[.*?\]", repl, s)` (line 112 of the source).  Replacement
strings containing backslash escapes (`\1`, `\g<...>`) are out of scope: the
source substitutes plain tokens. -/
def pySub (s repl : String) : String :=
  (pySubAux repl.toList s.toList.length s.toList).asString

/-- Python dict assignment `d[k] = f(d[k])` on an insertion-ordered mapping:
replace the value at the (unique) key `k`, keeping its position. -/
def updateValue (k : String) (f : String → String) : List (String × String) → List (String × String)
  | [] => []
  | (k', v) :: rest => if k' = k then (k', f v) :: rest else (k', v) :: updateValue k f rest

/-- Request Specification: the mapping loaded from a template YAML document.
A field is `none` when the corresponding key is absent from the document
(`config.get(...)` then takes its default; plain `config[...]` raises). -/
structure Config where
  method : Option String
  url : String
  params : Option (List (String × String))
  headers : Option (List (String × String))
  data : Option String
  api_name : Option String
deriving DecidableEq, Repr

/-- Result of Python `json.loads(body).get("accesstoken")` as the source
consumes it: `err` is a `json.JSONDecodeError`, `ok a` gives the value of the
`accesstoken` field (absent → `none`).  Responses whose `accesstoken` is a
non-string JSON value are out of scope. -/
inductive JsonParse where
  | err
  | ok (accesstoken : Option String)
deriving DecidableEq, Repr

/-- External effects of the source, made explicit: `fileExists` models
`Path("templates")/name` existence (line 84), `loadConfig` models
`load_curl_config` (line 87), `run` models `subprocess.run(...).stdout`
(line 91), and `jsonLoads` models `json.loads` combined with
`.get("accesstoken")` (lines 104-107). -/
structure Env where
  fileExists : String → Bool
  loadConfig : String → Config
  run : List String → String
  jsonLoads : String → JsonParse

/-- A message printed by the source during token resolution, one constructor
per `print`/`handle_error` call site (lines 82, 85, 90, 93, 96, 98, 101,
109, 116, 117); the constructor arguments are the dynamic parts of the
corresponding format string. -/
inductive Msg where
  | tokenFetchStart (name : String)
  | fileNotFoundMsg (name : String)
  | tokenCurlCmd (cmd : List String)
  | httpStatus (code : String)
  | tokenRequestFailedMsg (code : String)
  | invalidStatusMsg (code : String)
  | emptyBodyMsg
  | tokenMissingMsg
  | rawBody (body : String)
  | jsonErrorMsg
deriving DecidableEq, Repr

/-- Outcome of a Python call: either an uncaught exception or a returned
value (`ret none` is Python `None`, `ret (some s)` a returned string). -/
inductive PyRet where
  | raise (msg : String)
  | ret (v : Option String)
deriving DecidableEq, Repr

/-- `build_curl_command` (lines 26-54 of the source). -/
def build_curl_command (config : Config) (show_headers : Bool) : List String :=
  let method := config.method.getD "GET"
  let base_url := config.url
  let params := config.params.getD []
  let full_url :=
    if params ≠ [] ∧ pyUpper method = "GET" then base_url ++ "?" ++ urlencode params
    else base_url
  let cmd := ["curl", "-s"]
  let cmd := cmd ++ (if show_headers then ["-D", "-"] else [])
  let cmd := cmd ++ ["-X", method, full_url]
  let headers := config.headers.getD []
  let cmd := cmd ++ headers.foldl (fun acc kv => acc ++ ["-H", kv.1 ++ ": " ++ kv.2]) []
  let cmd := cmd ++
    (if pyUpper method = "POST" ∨ pyUpper method = "PUT" then
      match config.data with
      | some d => ["-d", d]
      | none =>
        if params ≠ [] then
          params.foldl (fun acc kv => acc ++ ["--data-urlencode", kv.1 ++ "=" ++ kv.2]) []
        else []
    else [])
  cmd ++ ["-w", "\nHTTP Status: %{http_code}\n"]

/-- State-passing form of `build_curl_command`: the source function only reads
`config` (every access in lines 26-54 is `config.get`/`config[...]` with no
store), so the specification after the call is the one passed in. -/
def build_curl_command_state (config : Config) (show_headers : Bool) : List String × Config :=
  (build_curl_command config show_headers, config)

/-- `parse_curl_output` (lines 123-133 of the source). -/
def parse_curl_output (output : String) (show_headers : Bool) : String × String × String :=
  let stripped := pyStripList output.toList
  let http_code := (takeLastN stripped 3).asString
  let full_response := (dropLastN stripped 16).asString
  if show_headers then
    let p := pyPartition full_response "\r\n\r\n"
    let p := if p.2.2 = "" then pyPartition full_response "\n\n" else p
    (pyStrip p.1, pyStrip p.2.2, http_code)
  else
    ("", pyStrip full_response, http_code)

/-- `handle_error` (lines 66-69): prints its message and returns the sentinel
string `"ERROR"`; the pair collects (returned value, printed messages). -/
def handle_error (message : Msg) : String × List Msg :=
  ("ERROR", [message])

/-- Lines 100-117 of `needs_bearer_token`: body handling after the status
check passed.  `_authorization_value` is `config["headers"]["Authorization"]`
as read at line 74 (the assignment at line 112 re-reads the same value from
the mapping, which `updateValue` below models), `body` the parsed response
body, `log` the messages printed so far. -/
def bodyPhase (env : Env) (config : Config) ( _authorization_value body : String)
    (log : List Msg) : PyRet × Config × List Msg :=
  if body = "" then
    let e := handle_error Msg.emptyBodyMsg
    (PyRet.ret (some e.1), config, log ++ e.2)
  else
    match env.jsonLoads body with
    | JsonParse.err =>
      let e := handle_error Msg.jsonErrorMsg
      (PyRet.ret (some e.1), config, log ++ [Msg.rawBody body] ++ e.2)
    | JsonParse.ok access_token =>
      match access_token with
      | none =>
        let e := handle_error Msg.tokenMissingMsg
        (PyRet.ret (some e.1), config, log ++ e.2)
      | some t =>
        if t = "" then
          let e := handle_error Msg.tokenMissingMsg
          (PyRet.ret (some e.1), config, log ++ e.2)
        else
          (PyRet.ret (some t),
           { config with
             headers := config.headers.map (updateValue "Authorization" (fun v => pySub v t)) },
           log)

/-- `needs_bearer_token` (lines 71-121 of the source).  `config["headers"]`
raises `KeyError` when the key is absent; `.get("Authorization")` then yields
`None` when that header is absent.  The third component records the printed
messages. -/
def needs_bearer_token (env : Env) (config : Config) : PyRet × Config × List Msg :=
  match config.headers with
  | none => (PyRet.raise "KeyError: headers", config, [])
  | some headers =>
    match List.lookup "Authorization" headers with
    | none => (PyRet.ret none, config, [])
    | some authorization_value =>
      match bracketSearch authorization_value with
      | none => (PyRet.ret none, config, [])
      | some auth_yaml =>
        if env.fileExists auth_yaml then
          let tconfig := env.loadConfig auth_yaml
          let cmd := build_curl_command tconfig false
          let pr := parse_curl_output (env.run cmd) false
          let body := pr.2.1
          let http_code := pr.2.2
          let log := [Msg.tokenFetchStart auth_yaml, Msg.tokenCurlCmd cmd,
                      Msg.httpStatus http_code]
          match pyInt http_code with
          | none =>
            let e := handle_error (Msg.invalidStatusMsg http_code)
            (PyRet.ret (some e.1), config, log ++ e.2)
          | some n =>
            if n ≠ 200 then
              let e := handle_error (Msg.tokenRequestFailedMsg http_code)
              (PyRet.ret (some e.1), config, log ++ e.2)
            else
              bodyPhase env config authorization_value body log
        else
          let e := handle_error (Msg.fileNotFoundMsg auth_yaml)
          (PyRet.ret (some e.1), config, [Msg.tokenFetchStart auth_yaml] ++ e.2)

/-- Outcome of one `main` run (lines 169-176): whether `sys.exit(1)` was
reached, an uncaught exception if any, and the argument list of the primary
request's client invocation when one occurred. -/
structure MainResult where
  exitedOne : Bool
  raised : Option String
  primaryCmd : Option (List String)
deriving DecidableEq, Repr

/-- `main` (lines 169-182), up to the primary request: the loaded
specification is taken as input, display-only printing is omitted.  The
source compares the resolver's return value with the sentinel `"ERROR"`
(`None == "ERROR"` is false in Python) and only on inequality builds and
runs the primary command, on the specification object the resolver may have
mutated. -/
def mainRun (env : Env) (config : Config) (show_header : Bool) : MainResult :=
  match needs_bearer_token env config with
  | (PyRet.raise m, _, _) => { exitedOne := false, raised := some m, primaryCmd := none }
  | (PyRet.ret v, config', _) =>
    if v = some "ERROR" then
      { exitedOne := true, raised := none, primaryCmd := none }
    else
      { exitedOne := false, raised := none, primaryCmd := some (build_curl_command config' show_header) }

/-- Output Parser as the specification sentence for claim C6 words it: the
`\n\n` retry happens exactly when the `\r\n\r\n` separator is absent from the
full response block.  (Comparison definition for a refinement claim; the
source instead retries whenever the portion after the split is empty.) -/
def parse_curl_output_claimC6 (output : String) (show_headers : Bool) : String × String × String :=
  let stripped := pyStripList output.toList
  let http_code := (takeLastN stripped 3).asString
  let full_response := (dropLastN stripped 16).asString
  if show_headers then
    if subIdx "\r\n\r\n".toList full_response.toList = none then
      (pyStrip (pyPartition full_response "\n\n").1,
       pyStrip (pyPartition full_response "\n\n").2.2, http_code)
    else
      (pyStrip (pyPartition full_response "\r\n\r\n").1,
       pyStrip (pyPartition full_response "\r\n\r\n").2.2, http_code)
  else
    ("", pyStrip full_response, http_code)

/-- Output Parser as amended for claim C6: the `\n\n` retry happens exactly
when the portion after the `\r\n\r\n` split is empty (in particular whenever
that separator is absent, but also when it occurs only as a trailing
suffix). -/
def parse_curl_output_amendC6 (output : String) (show_headers : Bool) : String × String × String :=
  let stripped := pyStripList output.toList
  let http_code := (takeLastN stripped 3).asString
  let full_response := (dropLastN stripped 16).asString
  if show_headers then
    if (pyPartition full_response "\r\n\r\n").2.2 = "" then
      (pyStrip (pyPartition full_response "\n\n").1,
       pyStrip (pyPartition full_response "\n\n").2.2, http_code)
    else
      (pyStrip (pyPartition full_response "\r\n\r\n").1,
       pyStrip (pyPartition full_response "\r\n\r\n").2.2, http_code)
  else
    ("", pyStrip full_response, http_code)

/-- A Request Specification with every optional key absent. -/
def emptyConfig : Config :=
  { method := none, url := "", params := none, headers := none, data := none,
    api_name := none }

/-- Environment in which no referenced template document exists. -/
def inertEnv : Env :=
  { fileExists := fun _ => false, loadConfig := fun _ => emptyConfig,
    run := fun _ => "", jsonLoads := fun _ => JsonParse.err }

/-- JSON body `{"accesstoken":"<tok>"}` of a token response. -/
def tokenJson (tok : String) : String :=
  "\x7b\"accesstoken\":\"" ++ tok ++ "\"\x7d"

/-- Environment whose token endpoint answers status 200 with body
`{"accesstoken":"<tok>"}`. -/
def tokenOkEnv (tok : String) : Env :=
  { fileExists := fun _ => true,
    loadConfig := fun _ => { emptyConfig with url := "http://token" },
    run := fun _ => tokenJson tok ++ "\nHTTP Status: 200\n",
    jsonLoads := fun s => if s = tokenJson tok then JsonParse.ok (some tok) else JsonParse.err }

/-- Environment whose token endpoint answers status 404. -/
def token404Env : Env :=
  { fileExists := fun _ => true,
    loadConfig := fun _ => { emptyConfig with url := "http://token" },
    run := fun _ => "denied\nHTTP Status: 404\n",
    jsonLoads := fun _ => JsonParse.err }

/-- A Request Specification whose Authorization header is `av`. -/
def bearerConfig (av : String) : Config :=
  { emptyConfig with url := "http://primary", headers := some [("Authorization", av)] }

/-- Environment answering 200 with token `abc123`. -/
def abcEnv : Env := tokenOkEnv "abc123"

/-- Environment answering 200 with the token string `ERROR`. -/
def errTokenEnv : Env := tokenOkEnv "ERROR"

/-- Specification whose Authorization value is `Bearer [auth.yml]`. -/
def bearerAuthConfig : Config := bearerConfig "Bearer [auth.yml]"

/-- Specification whose Authorization value is `[a\nb]`: a bracket-delimited
reference whose content spans a newline. -/
def newlineBracketConfig : Config := bearerConfig "[a\nb]"

/-- Specification with a headers mapping but no bracketed Authorization. -/
def plainHeaderConfig : Config :=
  { emptyConfig with
    url := "http://p",
    headers := some [("Authorization", "Bearer fixed"), ("X-A", "1")] }

/-- Specification with no headers mapping at all. -/
def noHeadersConfig : Config := { emptyConfig with url := "http://p" }

/-- GET specification with two params in insertion order (claim C7's
round-trip instance). -/
def c7Config : Config :=
  { method := none, url := "http://x/y", params := some [("a", "1"), ("b", "2")],
    headers := none, data := none, api_name := none }

/-- C8: for every Request Specification and every value of the show-headers
flag, the Command Builder leaves the specification unchanged, so running it
twice on the unmodified specification yields two identical argument
sequences. -/
theorem build_idempotent_pure (config : Config) (sh : Bool) :
    (build_curl_command_state config sh).2 = config ∧
    (build_curl_command_state (build_curl_command_state config sh).2 sh).1 =
      (build_curl_command_state config sh).1 :=
  ⟨rfl, rfl⟩

/-- C6 (counterexample): on the captured output
`"A\n\nB\r\n\r\nHTTP Status: 200"` the Output Parser does not retry with
`\n\n` "exactly when the `\r\n\r\n` separator is absent": the separator is
present (only as a trailing suffix of the full response block), yet the
source re-splits on `\n\n`, so the result differs from the claimed
behaviour. -/
theorem parse_output_retry_not_iff_absent :
    parse_curl_output "A\n\nB\r\n\r\nHTTP Status: 200" true = ("A", "B", "200") ∧
    parse_curl_output_claimC6 "A\n\nB\r\n\r\nHTTP Status: 200" true = ("A\n\nB", "", "200") ∧
    parse_curl_output "A\n\nB\r\n\r\nHTTP Status: 200" true ≠
      parse_curl_output_claimC6 "A\n\nB\r\n\r\nHTTP Status: 200" true := by
  refine ⟨by decide, by decide, by decide⟩

/-- C6 (amended): for every captured output, when headers were requested the
Output Parser splits the full-response block on the first `\r\n\r\n` and
retries with `\n\n` exactly when the portion after the `\r\n\r\n` split is
empty (in particular whenever that separator is absent); the portion before
the separator, trimmed, is the header block and the portion after, trimmed,
is the body.  When headers were not requested, the header block is empty and
the body is the entire trimmed full-response block. -/
theorem parse_output_retry_amended (output : String) (sh : Bool) :
    parse_curl_output output sh = parse_curl_output_amendC6 output sh := by
  have key : ∀ full code : String,
      (let p := pyPartition full "\r\n\r\n";
       let p := if p.2.2 = "" then pyPartition full "\n\n" else p;
       (pyStrip p.1, pyStrip p.2.2, code)) =
      (if (pyPartition full "\r\n\r\n").2.2 = "" then
        (pyStrip (pyPartition full "\n\n").1, pyStrip (pyPartition full "\n\n").2.2, code)
      else
        (pyStrip (pyPartition full "\r\n\r\n").1, pyStrip (pyPartition full "\r\n\r\n").2.2, code)) := by
    intro full code
    by_cases hc : (pyPartition full "\r\n\r\n").2.2 = "" <;> simp [hc]
  cases sh
  · rfl
  · exact key _ _

/-- C1 (counterexample): on a Request Specification with no `headers` mapping
at all, the Token Resolver is not a no-op returning the "no resolution
needed" value: the lookup `config["headers"]` raises `KeyError`. -/
theorem needs_no_headers_not_noop :
    (needs_bearer_token inertEnv noHeadersConfig).1 = PyRet.raise "KeyError: headers" ∧
    (needs_bearer_token inertEnv noHeadersConfig).1 ≠ PyRet.ret none := by
  refine ⟨by decide, by decide⟩

/-- C1 (amended): for every Request Specification that does carry a `headers`
mapping, the Token Resolver is a no-op when the Authorization header is
absent, or present without a bracket-delimited substring: it returns `None`
(not the error sentinel) and leaves the specification unchanged.  A
specification with no `headers` mapping at all instead raises `KeyError`. -/
theorem needs_noop_amended (env : Env) (config : Config) :
    (config.headers = none →
      needs_bearer_token env config = (PyRet.raise "KeyError: headers", config, [])) ∧
    (∀ headers, config.headers = some headers →
      List.lookup "Authorization" headers = none →
      needs_bearer_token env config = (PyRet.ret none, config, [])) ∧
    (∀ headers av, config.headers = some headers →
      List.lookup "Authorization" headers = some av →
      bracketSearch av = none →
      needs_bearer_token env config = (PyRet.ret none, config, [])) := by
  refine ⟨fun h => ?_, fun headers h1 h2 => ?_, fun headers av h1 h2 h3 => ?_⟩
  · simp [needs_bearer_token, h]
  · simp [needs_bearer_token, h1, h2]
  · simp [needs_bearer_token, h1, h2, h3]

/-- C1 (witness): concrete instance of the amended no-op statement, on a
specification whose Authorization value `Bearer fixed` has no bracket. -/
theorem needs_noop_amended_witness :
    plainHeaderConfig.headers = some [("Authorization", "Bearer fixed"), ("X-A", "1")] ∧
    List.lookup "Authorization" [("Authorization", "Bearer fixed"), ("X-A", "1")] =
      some "Bearer fixed" ∧
    bracketSearch "Bearer fixed" = none ∧
    needs_bearer_token inertEnv plainHeaderConfig = (PyRet.ret none, plainHeaderConfig, []) :=
  ⟨by decide, by decide, by decide,
    (needs_noop_amended inertEnv plainHeaderConfig).2.2
      [("Authorization", "Bearer fixed"), ("X-A", "1")] "Bearer fixed"
      (by decide) (by decide) (by decide)⟩

/-- C2 (counterexample): the Authorization value `[a\nb]` contains a
bracket-delimited reference (the search regex finds content `a\nb`), and the
token request succeeds with status 200 and body `{"accesstoken":"abc123"}`,
yet the resolver leaves the header unchanged: the substitution regex
`\[.*?\]` cannot cross the newline, so nothing is replaced even though the
extracted token is returned. -/
theorem needs_newline_bracket_unreplaced :
    bracketSearch "[a\nb]" = some "a\nb" ∧
    needs_bearer_token abcEnv newlineBracketConfig =
      (PyRet.ret (some "abc123"), newlineBracketConfig,
       [Msg.tokenFetchStart "a\nb",
        Msg.tokenCurlCmd ["curl", "-s", "-X", "GET", "http://token", "-w",
          "\nHTTP Status: %{http_code}\n"],
        Msg.httpStatus "200"]) := by
  refine ⟨by decide, by decide⟩

/-- C5 (counterexample): a run on a specification whose Authorization value
`[a\nb]` contains a bracket-delimited reference in which token resolution
"succeeds", yet the Command Builder runs on the primary request with the
reference still unresolved: the argument list handed to the external client
still carries the bracketed placeholder. -/
theorem main_unresolved_bracket_builds :
    bracketSearch "[a\nb]" = some "a\nb" ∧
    mainRun abcEnv newlineBracketConfig false =
      { exitedOne := false, raised := none,
        primaryCmd := some ["curl", "-s", "-X", "GET", "http://primary", "-H",
          "Authorization: [a\nb]", "-w", "\nHTTP Status: %{http_code}\n"] } := by
  refine ⟨by decide, by decide⟩

/-- C2 (amended): whenever the Authorization header contains a
bracket-delimited reference and the token request returns status 200 with
body `{"accesstoken":"abc123"}`, the Token Resolver substitutes `abc123` for
every occurrence of the lazy pattern `\[.*?\]` in the header (in place) and
returns the token; because the substitution pattern differs from the search
pattern, a reference whose bracket content spans a newline is detected but
left unreplaced.  For a header containing a single newline-free reference,
such as `Bearer [auth.yml]`, the bracketed substring becomes `abc123` and
the rest of the header value is unchanged. -/
theorem needs_success_substitutes (env : Env) (config : Config)
    (headers : List (String × String)) (av name : String)
    (pr : String × String × String)
    (hh : config.headers = some headers)
    (ha : List.lookup "Authorization" headers = some av)
    (hb : bracketSearch av = some name)
    (hf : env.fileExists name = true)
    (hpr : parse_curl_output (env.run (build_curl_command (env.loadConfig name) false)) false = pr)
    (h200 : pyInt pr.2.2 = some 200)
    (hbody : pr.2.1 ≠ "")
    (hj : env.jsonLoads pr.2.1 = JsonParse.ok (some "abc123")) :
    needs_bearer_token env config =
      (PyRet.ret (some "abc123"),
       { config with
         headers := some (updateValue "Authorization" (fun v => pySub v "abc123") headers) },
       [Msg.tokenFetchStart name,
        Msg.tokenCurlCmd (build_curl_command (env.loadConfig name) false),
        Msg.httpStatus pr.2.2]) := by
  simp [needs_bearer_token, bodyPhase, handle_error, hh, ha, hb, hf, hpr, h200, hbody, hj]

/-- C2 (witness): concrete instance of the amended substitution statement:
the header `Bearer [auth.yml]` becomes `Bearer abc123`. -/
theorem needs_success_substitutes_witness :
    abcEnv.fileExists "auth.yml" = true ∧
    abcEnv.jsonLoads "\x7b\"accesstoken\":\"abc123\"\x7d" = JsonParse.ok (some "abc123") ∧
    needs_bearer_token abcEnv bearerAuthConfig =
      (PyRet.ret (some "abc123"),
       { bearerAuthConfig with headers := some [("Authorization", "Bearer abc123")] },
       [Msg.tokenFetchStart "auth.yml",
        Msg.tokenCurlCmd ["curl", "-s", "-X", "GET", "http://token", "-w",
          "\nHTTP Status: %{http_code}\n"],
        Msg.httpStatus "200"]) :=
  ⟨rfl, by decide, by
    have h := needs_success_substitutes abcEnv bearerAuthConfig
      [("Authorization", "Bearer [auth.yml]")] "Bearer [auth.yml]" "auth.yml"
      ("", "\x7b\"accesstoken\":\"abc123\"\x7d", "200")
      (by decide) (by decide) (by decide) (by decide) (by decide) (by decide) (by decide)
      (by decide)
    exact h.trans (by decide)⟩

/-- C3: during token resolution, once the referenced document exists, the
status-code string extracted from the token response decides the outcome:
not parseable as an integer fails with the invalid-status message, parseable
but different from 200 fails with the token-request-failed message (whatever
the body holds), and only the value 200 proceeds to body handling. -/
theorem needs_status_dispatch (env : Env) (config : Config)
    (headers : List (String × String)) (av name : String)
    (pr : String × String × String)
    (hh : config.headers = some headers)
    (ha : List.lookup "Authorization" headers = some av)
    (hb : bracketSearch av = some name)
    (hf : env.fileExists name = true)
    (hpr : parse_curl_output (env.run (build_curl_command (env.loadConfig name) false)) false = pr) :
    (pyInt pr.2.2 = none →
      needs_bearer_token env config =
        (PyRet.ret (some "ERROR"), config,
         [Msg.tokenFetchStart name,
          Msg.tokenCurlCmd (build_curl_command (env.loadConfig name) false),
          Msg.httpStatus pr.2.2, Msg.invalidStatusMsg pr.2.2])) ∧
    (∀ n : Int, pyInt pr.2.2 = some n → n ≠ 200 →
      needs_bearer_token env config =
        (PyRet.ret (some "ERROR"), config,
         [Msg.tokenFetchStart name,
          Msg.tokenCurlCmd (build_curl_command (env.loadConfig name) false),
          Msg.httpStatus pr.2.2, Msg.tokenRequestFailedMsg pr.2.2])) ∧
    (pyInt pr.2.2 = some 200 →
      needs_bearer_token env config =
        bodyPhase env config av pr.2.1
          [Msg.tokenFetchStart name,
           Msg.tokenCurlCmd (build_curl_command (env.loadConfig name) false),
           Msg.httpStatus pr.2.2]) := by
  refine ⟨fun h => ?_, fun n h hn => ?_, fun h => ?_⟩
  · simp [needs_bearer_token, handle_error, hh, ha, hb, hf, hpr, h]
  · simp [needs_bearer_token, handle_error, hh, ha, hb, hf, hpr, h, hn]
  · simp [needs_bearer_token, hh, ha, hb, hf, hpr, h]

/-- C3 (witness): a token response with status 404 fails with the
token-request-failed message regardless of its body. -/
theorem needs_status_dispatch_witness :
    pyInt "404" = some 404 ∧ ((404 : Int) = 200 → False) ∧
    needs_bearer_token token404Env bearerAuthConfig =
      (PyRet.ret (some "ERROR"), bearerAuthConfig,
       [Msg.tokenFetchStart "auth.yml",
        Msg.tokenCurlCmd ["curl", "-s", "-X", "GET", "http://token", "-w",
          "\nHTTP Status: %{http_code}\n"],
        Msg.httpStatus "404", Msg.tokenRequestFailedMsg "404"]) :=
  ⟨by decide, by decide, by
    have h := (needs_status_dispatch token404Env bearerAuthConfig
      [("Authorization", "Bearer [auth.yml]")] "Bearer [auth.yml]" "auth.yml"
      ("", "denied", "404")
      (by decide) (by decide) (by decide) (by decide) (by decide)).2.1
    exact (h 404 (by decide) (by decide)).trans (by decide)⟩

/-- C9: when the token endpoint answers 200 with body
`{"accesstoken":"ERROR"}`, the resolver's success value collides with the
error sentinel: the Authorization header is mutated with the substituted
token, yet `main` compares the returned string with `"ERROR"`, treats the
run as failed, exits with status 1 and never invokes the external client for
the primary request. -/
theorem needs_error_token_collision (env : Env) (config : Config)
    (headers : List (String × String)) (av name : String)
    (pr : String × String × String) (sh : Bool)
    (hh : config.headers = some headers)
    (ha : List.lookup "Authorization" headers = some av)
    (hb : bracketSearch av = some name)
    (hf : env.fileExists name = true)
    (hpr : parse_curl_output (env.run (build_curl_command (env.loadConfig name) false)) false = pr)
    (h200 : pyInt pr.2.2 = some 200)
    (hbody : pr.2.1 ≠ "")
    (hj : env.jsonLoads pr.2.1 = JsonParse.ok (some "ERROR")) :
    needs_bearer_token env config =
      (PyRet.ret (some "ERROR"),
       { config with
         headers := some (updateValue "Authorization" (fun v => pySub v "ERROR") headers) },
       [Msg.tokenFetchStart name,
        Msg.tokenCurlCmd (build_curl_command (env.loadConfig name) false),
        Msg.httpStatus pr.2.2]) ∧
    mainRun env config sh = { exitedOne := true, raised := none, primaryCmd := none } := by
  have h1 : needs_bearer_token env config =
      (PyRet.ret (some "ERROR"),
       { config with
         headers := some (updateValue "Authorization" (fun v => pySub v "ERROR") headers) },
       [Msg.tokenFetchStart name,
        Msg.tokenCurlCmd (build_curl_command (env.loadConfig name) false),
        Msg.httpStatus pr.2.2]) := by
    simp [needs_bearer_token, bodyPhase, handle_error, hh, ha, hb, hf, hpr, h200, hbody, hj]
  exact ⟨h1, by simp [mainRun, h1]⟩

/-- C9 (witness): concrete run in which the token endpoint returns the token
string `ERROR`: the header `Bearer [auth.yml]` is mutated to `Bearer ERROR`,
yet the run aborts with exit status 1 and no primary invocation. -/
theorem needs_error_token_collision_witness :
    errTokenEnv.jsonLoads "\x7b\"accesstoken\":\"ERROR\"\x7d" = JsonParse.ok (some "ERROR") ∧
    needs_bearer_token errTokenEnv bearerAuthConfig =
      (PyRet.ret (some "ERROR"),
       { bearerAuthConfig with headers := some [("Authorization", "Bearer ERROR")] },
       [Msg.tokenFetchStart "auth.yml",
        Msg.tokenCurlCmd ["curl", "-s", "-X", "GET", "http://token", "-w",
          "\nHTTP Status: %{http_code}\n"],
        Msg.httpStatus "200"]) ∧
    mainRun errTokenEnv bearerAuthConfig false =
      { exitedOne := true, raised := none, primaryCmd := none } := by
  have h := needs_error_token_collision errTokenEnv bearerAuthConfig
    [("Authorization", "Bearer [auth.yml]")] "Bearer [auth.yml]" "auth.yml"
    ("", "\x7b\"accesstoken\":\"ERROR\"\x7d", "200") false
    (by decide) (by decide) (by decide) (by decide) (by decide) (by decide) (by decide)
    (by decide)
  exact ⟨by decide, h.1.trans (by decide), h.2⟩

/-- C5 (amended): in every run on a specification whose Authorization value
contains a bracket-delimited reference, when resolution fails (for example
the referenced document does not exist) the run aborts with exit status 1
and the external client is never invoked for the primary request; when
resolution succeeds with a token different from the sentinel, the Command
Builder runs on the specification whose Authorization header had every
occurrence of the lazy pattern `\[.*?\]` replaced by the token — which
leaves a reference whose bracket content spans a newline unresolved. -/
theorem main_token_flow (env : Env) (config : Config)
    (headers : List (String × String)) (av name t : String)
    (pr : String × String × String) (sh : Bool)
    (hh : config.headers = some headers)
    (ha : List.lookup "Authorization" headers = some av)
    (hb : bracketSearch av = some name)
    (hpr : parse_curl_output (env.run (build_curl_command (env.loadConfig name) false)) false = pr) :
    (env.fileExists name = false →
      needs_bearer_token env config =
        (PyRet.ret (some "ERROR"), config,
         [Msg.tokenFetchStart name, Msg.fileNotFoundMsg name]) ∧
      mainRun env config sh = { exitedOne := true, raised := none, primaryCmd := none }) ∧
    (env.fileExists name = true → pyInt pr.2.2 = some 200 → pr.2.1 ≠ "" →
      env.jsonLoads pr.2.1 = JsonParse.ok (some t) → t ≠ "" → t ≠ "ERROR" →
      mainRun env config sh =
        { exitedOne := false, raised := none,
          primaryCmd := some (build_curl_command
            { config with
              headers := some (updateValue "Authorization" (fun v => pySub v t) headers) } sh) }) := by
  constructor
  · intro hf
    have h1 : needs_bearer_token env config =
        (PyRet.ret (some "ERROR"), config,
         [Msg.tokenFetchStart name, Msg.fileNotFoundMsg name]) := by
      simp [needs_bearer_token, handle_error, hh, ha, hb, hf]
    exact ⟨h1, by simp [mainRun, h1]⟩
  · intro hf h200 hbody hj ht hterr
    have h1 : needs_bearer_token env config =
        (PyRet.ret (some t),
         { config with
           headers := some (updateValue "Authorization" (fun v => pySub v t) headers) },
         [Msg.tokenFetchStart name,
          Msg.tokenCurlCmd (build_curl_command (env.loadConfig name) false),
          Msg.httpStatus pr.2.2]) := by
      simp [needs_bearer_token, bodyPhase, handle_error, hh, ha, hb, hf, hpr, h200, hbody, hj, ht]
    simp [mainRun, h1, hterr]

/-- C5 (witness): for a bracketed reference to a non-existent document the
run aborts with exit status 1 and no primary invocation occurs. -/
theorem main_token_flow_witness :
    inertEnv.fileExists "auth.yml" = false ∧
    needs_bearer_token inertEnv bearerAuthConfig =
      (PyRet.ret (some "ERROR"), bearerAuthConfig,
       [Msg.tokenFetchStart "auth.yml", Msg.fileNotFoundMsg "auth.yml"]) ∧
    mainRun inertEnv bearerAuthConfig false =
      { exitedOne := true, raised := none, primaryCmd := none } := by
  have h := (main_token_flow inertEnv bearerAuthConfig
    [("Authorization", "Bearer [auth.yml]")] "Bearer [auth.yml]" "auth.yml" ""
    ("", "", "") false (by decide) (by decide) (by decide) (by decide)).1 rfl
  exact ⟨rfl, h.1, h.2⟩

/-- C10: the Token Resolver mutates the Request Specification only on the
success path after every check passed; contrapositively, whenever the
returned specification differs from the input one, the Authorization header
carried a bracketed reference, the referenced document existed, the status
code parsed to 200, the body was nonempty, JSON decoding produced a nonempty
`accesstoken`, and the call returned that token.  On every failure path
(document missing, invalid status, non-200 status, empty body, malformed
JSON, missing or empty accesstoken) the specification is unchanged. -/
theorem needs_failure_preserves_config (env : Env) (config : Config)
    (hchg : (needs_bearer_token env config).2.1 ≠ config) :
    ∃ headers av name t,
      config.headers = some headers ∧
      List.lookup "Authorization" headers = some av ∧
      bracketSearch av = some name ∧
      env.fileExists name = true ∧
      pyInt (parse_curl_output (env.run (build_curl_command (env.loadConfig name) false)) false).2.2
        = some 200 ∧
      (parse_curl_output (env.run (build_curl_command (env.loadConfig name) false)) false).2.1 ≠ "" ∧
      env.jsonLoads
        (parse_curl_output (env.run (build_curl_command (env.loadConfig name) false)) false).2.1
        = JsonParse.ok (some t) ∧
      t ≠ "" ∧
      needs_bearer_token env config =
        (PyRet.ret (some t),
         { config with
           headers := some (updateValue "Authorization" (fun v => pySub v t) headers) },
         [Msg.tokenFetchStart name,
          Msg.tokenCurlCmd (build_curl_command (env.loadConfig name) false),
          Msg.httpStatus
            (parse_curl_output (env.run (build_curl_command (env.loadConfig name) false)) false).2.2]) := by
  rcases hh : config.headers with _ | headers
  · exact absurd (by simp [needs_bearer_token, hh]) hchg
  rcases ha : List.lookup "Authorization" headers with _ | av
  · exact absurd (by simp [needs_bearer_token, hh, ha]) hchg
  rcases hb : bracketSearch av with _ | name
  · exact absurd (by simp [needs_bearer_token, hh, ha, hb]) hchg
  by_cases hf : env.fileExists name
  case neg =>
    exact absurd (by simp [needs_bearer_token, handle_error, hh, ha, hb, hf]) hchg
  rcases hpi : pyInt (parse_curl_output
      (env.run (build_curl_command (env.loadConfig name) false)) false).2.2 with _ | n
  · exact absurd (by simp [needs_bearer_token, handle_error, hh, ha, hb, hf, hpi]) hchg
  by_cases h200 : n = 200
  case neg =>
    exact absurd (by simp [needs_bearer_token, handle_error, hh, ha, hb, hf, hpi, h200]) hchg
  subst h200
  by_cases hbody : (parse_curl_output
      (env.run (build_curl_command (env.loadConfig name) false)) false).2.1 = ""
  · exact absurd
      (by simp [needs_bearer_token, bodyPhase, handle_error, hh, ha, hb, hf, hpi, hbody]) hchg
  rcases hj : env.jsonLoads (parse_curl_output
      (env.run (build_curl_command (env.loadConfig name) false)) false).2.1 with _ | tok
  · exact absurd
      (by simp [needs_bearer_token, bodyPhase, handle_error, hh, ha, hb, hf, hpi, hbody, hj]) hchg
  rcases tok with _ | t
  · exact absurd
      (by simp [needs_bearer_token, bodyPhase, handle_error, hh, ha, hb, hf, hpi, hbody, hj]) hchg
  by_cases ht : t = ""
  · exact absurd
      (by simp [needs_bearer_token, bodyPhase, handle_error, hh, ha, hb, hf, hpi, hbody, hj, ht]) hchg
  refine ⟨headers, av, name, t, rfl, ha, hb, hf, hpi, hbody, hj, ht, ?_⟩
  simp [needs_bearer_token, bodyPhase, handle_error, hh, ha, hb, hf, hpi, hbody, hj, ht]

/-- C10 (witness): a run in which the specification does change; the theorem
then certifies every success condition for it. -/
theorem needs_failure_preserves_config_witness :
    (needs_bearer_token abcEnv bearerAuthConfig).2.1 ≠ bearerAuthConfig ∧
    ∃ headers av name t,
      bearerAuthConfig.headers = some headers ∧
      List.lookup "Authorization" headers = some av ∧
      bracketSearch av = some name ∧
      abcEnv.fileExists name = true ∧
      pyInt (parse_curl_output
        (abcEnv.run (build_curl_command (abcEnv.loadConfig name) false)) false).2.2 = some 200 ∧
      (parse_curl_output
        (abcEnv.run (build_curl_command (abcEnv.loadConfig name) false)) false).2.1 ≠ "" ∧
      abcEnv.jsonLoads
        (parse_curl_output (abcEnv.run (build_curl_command (abcEnv.loadConfig name) false)) false).2.1
        = JsonParse.ok (some t) ∧
      t ≠ "" ∧
      needs_bearer_token abcEnv bearerAuthConfig =
        (PyRet.ret (some t),
         { bearerAuthConfig with
           headers := some (updateValue "Authorization" (fun v => pySub v t) headers) },
         [Msg.tokenFetchStart name,
          Msg.tokenCurlCmd (build_curl_command (abcEnv.loadConfig name) false),
          Msg.httpStatus
            (parse_curl_output
              (abcEnv.run (build_curl_command (abcEnv.loadConfig name) false)) false).2.2]) :=
  ⟨by decide, needs_failure_preserves_config abcEnv bearerAuthConfig (by decide)⟩

/-- C7: for every Request Specification whose effective method upper-cases to
GET and whose params mapping is non-empty, the Command Builder places, as
the URL argument (position 4 of the argument list, or 6 when response
headers are requested), the base URL followed by `?` and the URL-encoded
params in insertion order. -/
theorem build_get_params_url (config : Config) (sh : Bool)
    (hm : pyUpper (config.method.getD "GET") = "GET")
    (hp : config.params.getD [] ≠ []) :
    (build_curl_command config sh).get? (if sh then 6 else 4) =
      some (config.url ++ "?" ++ urlencode (config.params.getD [])) := by
  cases sh <;> simp [build_curl_command, hp, hm]

/-- C7 (witness): url `http://x/y` with params `a=1, b=2` (insertion order)
yields the URL argument `http://x/y?a=1&b=2`. -/
theorem build_get_params_url_witness :
    pyUpper (c7Config.method.getD "GET") = "GET" ∧
    c7Config.params.getD [] ≠ [] ∧
    (build_curl_command c7Config false).get? 4 = some "http://x/y?a=1&b=2" :=
  ⟨by decide, by decide, by
    have h := build_get_params_url c7Config false (by decide) (by decide)
    exact h.trans (by decide)⟩

/-- `String.toList` distributes over append. -/
theorem toList_append (a b : String) : (a ++ b).toList = a.toList ++ b.toList :=
  String.data_append a b

/-- `List.asString` round-trips through `String.toList`. -/
theorem toList_asString (l : List Char) : l.asString.toList = l := rfl

/-- The head surviving `dropWhile` does not satisfy the predicate. -/
theorem dropWhile_head_false {p : Char → Bool} :
    ∀ {l t : List Char} {c : Char}, l.dropWhile p = c :: t → p c = false := by
  intro l
  induction l with
  | nil => intro t c h; simp [List.dropWhile] at h
  | cons a l ih =>
    intro t c h
    rw [List.dropWhile_cons] at h
    by_cases hp : p a = true
    · rw [if_pos hp] at h; exact ih h
    · rw [if_neg hp] at h
      injection h with h1 h2
      subst h1
      simpa using hp

/-- The Python slice `s[-n:]` ignores a prefix when `n` fits in the suffix. -/
theorem takeLastN_append (a b : List Char) (n : Nat) (h : n ≤ b.length) :
    takeLastN (a ++ b) n = takeLastN b n := by
  unfold takeLastN
  rw [List.length_append]
  have h2 : a.length + b.length - n = a.length + (b.length - n) := by omega
  rw [h2, List.drop_append]

/-- The Python slice `s[:-n]` keeps a prefix intact when `n` fits in the
suffix. -/
theorem dropLastN_append (a b : List Char) (n : Nat) (h : n ≤ b.length) :
    dropLastN (a ++ b) n = a ++ dropLastN b n := by
  unfold dropLastN
  rw [List.length_append]
  have h2 : a.length + b.length - n = a.length + (b.length - n) := by omega
  rw [h2, List.take_append]

/-- Right-stripping a concatenation whose second part does not strip away
entirely leaves the first part untouched. -/
theorem rstripList_append (x y : List Char) (hne : y.reverse.dropWhile isPySpace ≠ []) :
    ((x ++ y).reverse.dropWhile isPySpace).reverse =
      x ++ (y.reverse.dropWhile isPySpace).reverse := by
  rw [List.reverse_append, List.dropWhile_append,
    if_neg (by simpa [List.isEmpty_iff] using hne), List.reverse_append, List.reverse_reverse]

/-- The status-code component of the Output Parser does not depend on the
show-headers flag: it is always the last three characters of the trimmed
output. -/
theorem parse_code_eq (output : String) (sh : Bool) :
    (parse_curl_output output sh).2.2 = (takeLastN (pyStripList output.toList) 3).asString := by
  cases sh <;> rfl

/-- Shape of the Output Parser result when headers were not requested. -/
theorem parse_false_eq (output : String) :
    parse_curl_output output false =
      ("", pyStrip ((dropLastN (pyStripList output.toList) 16).asString),
       (takeLastN (pyStripList output.toList) 3).asString) := rfl

/-- C4: for every body text `B`, the captured output
`B ++ "\nHTTP Status: 200\n"` parses to status-code string `"200"` (the last
3 characters of the trimmed text) under either value of the show-headers
flag, and with headers not requested its body region is exactly `B` with the
trailing 16-character marker (`HTTP Status: ` plus the 3-digit code)
stripped, up to trimming of surrounding whitespace. -/
theorem parse_output_marker (B : String) (sh : Bool) :
    (parse_curl_output (B ++ "\nHTTP Status: 200\n") sh).2.2 = "200" ∧
    parse_curl_output (B ++ "\nHTTP Status: 200\n") false = ("", pyStrip B, "200") := by
  rcases hsplit : B.toList.dropWhile isPySpace with _ | ⟨c, t⟩
  · have h1 : pyStripList ((B ++ "\nHTTP Status: 200\n").toList) = "HTTP Status: 200".toList := by
      unfold pyStripList
      rw [toList_append, List.dropWhile_append, hsplit]
      decide
    have hB : pyStrip B = "" := by
      unfold pyStrip pyStripList
      rw [hsplit]
      rfl
    constructor
    · rw [parse_code_eq, h1]; decide
    · rw [parse_false_eq, h1, hB]; decide
  · have hc : isPySpace c = false := dropWhile_head_false hsplit
    have h1 : pyStripList ((B ++ "\nHTTP Status: 200\n").toList) =
        (c :: t) ++ "\nHTTP Status: 200".toList := by
      unfold pyStripList
      rw [toList_append, List.dropWhile_append, hsplit, if_neg (by simp)]
      rw [rstripList_append _ _ (by decide)]
      rw [show ("\nHTTP Status: 200\n".toList.reverse.dropWhile isPySpace).reverse =
        "\nHTTP Status: 200".toList from by decide]
    have hbody : pyStripList ((c :: t) ++ ['\n']) =
        ((c :: t).reverse.dropWhile isPySpace).reverse := by
      unfold pyStripList
      have e1 : ((c :: t) ++ ['\n']).dropWhile isPySpace = (c :: t) ++ ['\n'] := by
        rw [List.cons_append, List.dropWhile_cons, if_neg (by simp [hc])]
      rw [e1, List.reverse_append]
      rw [show (['\n'] : List Char).reverse = ['\n'] from rfl]
      rw [List.singleton_append, List.dropWhile_cons, if_pos (by decide)]
    constructor
    · rw [parse_code_eq, h1, takeLastN_append _ _ _ (by decide)]
      decide
    · rw [parse_false_eq, h1, dropLastN_append _ _ _ (by decide),
        takeLastN_append _ _ _ (by decide)]
      rw [show dropLastN "\nHTTP Status: 200".toList 16 = ['\n'] from by decide]
      rw [show (takeLastN "\nHTTP Status: 200".toList 3).asString = "200" from by decide]
      unfold pyStrip
      rw [toList_asString, hbody]
      unfold pyStripList
      rw [hsplit]
